import Mathlib

/-!
Verification of the Ampæra Home Assistant integration's discovery,
device-sync and telemetry-push engine.

The definitions below are a shallow embedding of the Python sources
`custom_components/ampaera/device_discovery.py`,
`custom_components/ampaera/device_sync_service.py` and
`custom_components/ampaera/push_service.py`.  Python dicts are modelled
as insertion-ordered association lists (`List (String × _)`) with
dict-assignment semantics (`assocSet`), Python floats as `ℚ`, and the
Home Assistant registries and the remote backend as explicit function
parameters (oracles).  Network calls are modelled with `Except`.
-/

/-! ## Python string primitives -/

/-- Prefix test on character lists (needle, haystack). -/
def charsStart : List Char → List Char → Bool
  | [], _ => true
  | _ :: _, [] => false
  | a :: as, b :: bs => a = b && charsStart as bs

/-- Contiguous-occurrence test on character lists (needle, haystack). -/
def charsSub (needle : List Char) : List Char → Bool
  | [] => needle.isEmpty
  | c :: rest => charsStart needle (c :: rest) || charsSub needle rest

/-- Python `needle in hay` on strings. -/
def pyIn (needle hay : String) : Bool := charsSub needle.data hay.data

/-- Python `s.startswith(p)`. -/
def pyStarts (s p : String) : Bool := charsStart p.data s.data

/-- Python `s.lower()`. -/
def strLower (s : String) : String := ⟨s.data.map Char.toLower⟩

/-- Python `s.split(sep)` on character lists. -/
def splitChars (sep : Char) : List Char → List (List Char)
  | [] => [[]]
  | c :: cs =>
    let r := splitChars sep cs
    if c = sep then [] :: r
    else
      match r with
      | [] => [[c]]
      | h :: t => (c :: h) :: t

/-- Python `entity_id.split(".")[0]` (the domain of an entity id). -/
def entityDomain (s : String) : String :=
  match splitChars '.' s.data with
  | h :: _ => ⟨h⟩
  | [] => ""

/-- Python `entity_id.split(".")[1]` (the object part of an entity id).
All entity ids handled by the integration contain a dot; for a dotless
string we return "" where Python would raise. -/
def entityNamePart (s : String) : String :=
  match splitChars '.' s.data with
  | _ :: h :: _ => ⟨h⟩
  | _ => ""

/-- Python `s.strip()`: drop leading and trailing whitespace. -/
def pyStrip (s : String) : String :=
  ⟨((s.data.dropWhile Char.isWhitespace).reverse.dropWhile Char.isWhitespace).reverse⟩

/-- Value of a list of decimal digit characters. -/
def digitsToNat (ds : List Char) : Nat := ds.foldl (fun n c => n * 10 + (c.toNat - 48)) 0

/-- Split a character list at the first '.', if any. -/
def splitDot : List Char → List Char × Option (List Char)
  | [] => ([], none)
  | c :: cs =>
    if c = '.' then ([], some cs)
    else
      let (a, b) := splitDot cs
      (c :: a, b)

/-- Python `float(s)` for plain decimal literals (optional sign, digits,
optional fractional part).  Exponent/inf/nan forms, which never occur in
the telemetry states handled here, parse to `none` (like a parse error). -/
def pyFloat (s : String) : Option ℚ :=
  let t := pyStrip s
  let signAndRest : ℚ × List Char :=
    match t.data with
    | '-' :: cs => (-1, cs)
    | '+' :: cs => (1, cs)
    | cs => (1, cs)
  let (ip, fpOpt) := splitDot signAndRest.2
  let fp := fpOpt.getD []
  if (ip.all Char.isDigit && fp.all Char.isDigit) && (!ip.isEmpty || !fp.isEmpty) then
    some (signAndRest.1 * ((digitsToNat ip : ℚ) + (digitsToNat fp : ℚ) / (10 : ℚ) ^ fp.length))
  else none

/-- Python `int(x)` on a float: truncation toward zero. -/
def pyInt (q : ℚ) : ℤ := if q < 0 then q.ceil else q.floor

/-! ## Python dict as insertion-ordered association list -/

/-- Python `d.get(k)` on an insertion-ordered dict. -/
def sfind {β : Type} (m : List (String × β)) (k : String) : Option β :=
  match m with
  | [] => none
  | (k', v) :: rest => if k' = k then some v else sfind rest k

/-- Python `d[k] = v`: replace the binding in place if the key exists,
else append.  Dict keys are unique, so replacing the first occurrence is
exactly dict assignment. -/
def assocSet {β : Type} (m : List (String × β)) (k : String) (v : β) : List (String × β) :=
  match m with
  | [] => [(k, v)]
  | (k', v') :: rest => if k' = k then (k, v) :: rest else (k', v') :: assocSet rest k v

/-! ## Data model (`device_discovery.py`) -/

/-- `AmperaDeviceType` enum. -/
inductive AmperaDeviceType where
  | power_meter
  | water_heater
  | ev_charger
  | switch
  | climate
  | sensor
deriving DecidableEq, Repr, Fintype

/-- `AmperaCapability` enum. -/
inductive AmperaCapability where
  | power
  | power_l1
  | power_l2
  | power_l3
  | energy
  | energy_import
  | energy_export
  | voltage_l1
  | voltage_l2
  | voltage_l3
  | current_l1
  | current_l2
  | current_l3
  | voltage
  | current
  | temperature
  | target_temperature
  | on_off
  | humidity
  | charge_limit
  | session_energy
deriving DecidableEq, Repr, Fintype

/-- The `.value` string of each `AmperaCapability` enum member. -/
def capValue : AmperaCapability → String
  | .power => "power"
  | .power_l1 => "power_l1"
  | .power_l2 => "power_l2"
  | .power_l3 => "power_l3"
  | .energy => "energy"
  | .energy_import => "energy_import"
  | .energy_export => "energy_export"
  | .voltage_l1 => "voltage_l1"
  | .voltage_l2 => "voltage_l2"
  | .voltage_l3 => "voltage_l3"
  | .current_l1 => "current_l1"
  | .current_l2 => "current_l2"
  | .current_l3 => "current_l3"
  | .voltage => "voltage"
  | .current => "current"
  | .temperature => "temperature"
  | .target_temperature => "target_temperature"
  | .on_off => "on_off"
  | .humidity => "humidity"
  | .charge_limit => "charge_limit"
  | .session_energy => "session_energy"

/-- One Home Assistant `State` object together with the attributes the
engine reads from it (`attributes.get(...)` returning `none` when the
attribute is absent). -/
structure HAState where
  entity_id : String
  state : String
  friendly_name : Option String := none
  device_class : Option String := none
  unit_of_measurement : Option String := none
  current_temperature : Option ℚ := none
  temperature : Option ℚ := none
  current_power_w : Option ℚ := none
  total_energy_kwh : Option ℚ := none
deriving DecidableEq, Repr

/-- A discovered logical device (`DiscoveredDevice` dataclass).  The
`entity_mapping` dict (capability value → entity id) is an association
list. -/
structure DiscoveredDevice where
  ha_device_id : String
  name : String
  device_type : AmperaDeviceType
  capabilities : List AmperaCapability
  entity_mapping : List (String × String)
  primary_entity_id : String
  manufacturer : Option String := none
  model : Option String := none
deriving DecidableEq, Repr

/-! ## Static lookup tables (`device_discovery.py`).
Python set/dict literals become lists of their (distinct) members; only
membership and distinct-match counts are ever taken, so iteration order
is irrelevant. -/

def SUPPORTED_DOMAINS : List String := ["sensor", "water_heater", "switch", "climate"]

def KNOWN_EV_CHARGER_INTEGRATIONS : List String :=
  ["easee", "zaptec", "garo", "wallbox", "ocpp", "tesla_wall_connector", "ohme",
   "myenergi", "hypervolt", "go_echarger", "evbox", "charge_amps", "alfen"]

def KNOWN_WATER_HEATER_INTEGRATIONS : List String :=
  ["ouman", "sensibo", "mill", "generic_thermostat", "aquanta", "rheem", "ao_smith"]

def KNOWN_POWER_METER_INTEGRATIONS : List String :=
  ["tibber", "elvia", "amshan", "p1_monitor", "shelly", "tasmota", "tuya", "sonoff"]

def WATER_HEATER_SIGNALS : List String :=
  ["tank_temperature", "water_temperature", "hot_water", "legionella",
   "away_mode_temperature", "boost_mode", "heating_state",
   "varmtvann", "bereder", "boiler", "water_heater"]

def AMS_POWER_METER_SIGNALS : List String :=
  ["active_power_import", "active_power_import_l1", "active_power_import_l2",
   "active_power_import_l3", "active_power_export",
   "reactive_power_import", "reactive_power_export",
   "voltage_l1", "voltage_l2", "voltage_l3",
   "current_l1", "current_l2", "current_l3",
   "power_factor", "power_factor_l1", "power_factor_l2", "power_factor_l3",
   "active_power_import_total", "meter_id", "meter_manufacturer", "obis",
   "ams", "han", "strømmåler", "power_consumption"]

def EV_CHARGER_SIGNALS : List String :=
  ["status", "session_energy", "total_energy", "power",
   "cable_connected", "cable_locked", "ev_connected",
   "available_current_l1", "available_current_l2", "available_current_l3",
   "actual_current_l1", "actual_current_l2", "actual_current_l3",
   "charge_mode", "pilot_level", "operating_mode",
   "max_charging_current", "dynamic_charger_limit",
   "charging_power", "charging_current", "charging_status", "charger_status",
   "charger", "lader", "elbil", "ev_"]

def EV_CHARGER_KEYWORDS : List String :=
  ["charger", "ev", "easee", "zaptec", "wallbox", "lader", "elbil"]

def AMS_KEYWORDS : List String :=
  ["ams", "han", "meter", "strømmåler", "power consumption"]

def WATER_HEATER_KEYWORDS : List String :=
  ["water heater", "varmtvannsbereder", "boiler", "hot water"]

/-! ## Entity classification (`AmperaDeviceDiscovery._analyze_entity_capability`) -/

/-- Per-entity capability extraction (`_analyze_entity_capability`).
Returns `(capability, device_class)`; `(none, none)` when not relevant. -/
def analyzeEntityCapability (st : HAState) : Option AmperaCapability × Option String :=
  let domain := entityDomain st.entity_id
  if !(SUPPORTED_DOMAINS.contains domain) then (none, none)
  else
    let device_class := st.device_class
    let friendly_name := strLower (st.friendly_name.getD st.entity_id)
    if domain = "sensor" then
      if device_class = some "power" then
        if pyIn "l1" friendly_name || pyIn "phase 1" friendly_name then (some .power_l1, device_class)
        else if pyIn "l2" friendly_name || pyIn "phase 2" friendly_name then (some .power_l2, device_class)
        else if pyIn "l3" friendly_name || pyIn "phase 3" friendly_name then (some .power_l3, device_class)
        else (some .power, device_class)
      else if device_class = some "energy" then
        if pyIn "export" friendly_name then (some .energy_export, device_class)
        else if pyIn "import" friendly_name then (some .energy_import, device_class)
        else if pyIn "session" friendly_name then (some .session_energy, device_class)
        else (some .energy, device_class)
      else if device_class = some "voltage" then
        if pyIn "l1" friendly_name || pyIn "phase 1" friendly_name then (some .voltage_l1, device_class)
        else if pyIn "l2" friendly_name || pyIn "phase 2" friendly_name then (some .voltage_l2, device_class)
        else if pyIn "l3" friendly_name || pyIn "phase 3" friendly_name then (some .voltage_l3, device_class)
        else (some .voltage, device_class)
      else if device_class = some "current" then
        if pyIn "l1" friendly_name || pyIn "phase 1" friendly_name then (some .current_l1, device_class)
        else if pyIn "l2" friendly_name || pyIn "phase 2" friendly_name then (some .current_l2, device_class)
        else if pyIn "l3" friendly_name || pyIn "phase 3" friendly_name then (some .current_l3, device_class)
        else (some .current, device_class)
      else if device_class = some "temperature" then (some .temperature, device_class)
      else (none, none)
    else if domain = "water_heater" then (some .temperature, some "water_heater")
    else if domain = "switch" then (some .on_off, some "switch")
    else if domain = "climate" then (some .temperature, some "climate")
    else (none, none)

/-! ## Device-type classification cascade (`_determine_device_type`) -/

/-- Tier 1: known-integration lookup (`_detect_device_type_from_integration`).
The entity registry's platform lookup is the `platformOf` oracle; a missing
or empty platform is skipped (Python falsy check). -/
def detectDeviceTypeFromIntegration (platformOf : String → Option String) :
    List HAState → Option AmperaDeviceType
  | [] => none
  | st :: rest =>
    match platformOf st.entity_id with
    | none => detectDeviceTypeFromIntegration platformOf rest
    | some platform =>
      if platform = "" then detectDeviceTypeFromIntegration platformOf rest
      else
        let pl := strLower platform
        if KNOWN_EV_CHARGER_INTEGRATIONS.contains pl then some .ev_charger
        else if KNOWN_WATER_HEATER_INTEGRATIONS.contains pl then some .water_heater
        else if KNOWN_POWER_METER_INTEGRATIONS.contains pl then some .power_meter
        else detectDeviceTypeFromIntegration platformOf rest

/-- The lowercase blob `all_text` built from entity id object parts and
friendly names, space-joined, in `_detect_device_type_from_signals`. -/
def signalText (entities : List HAState) : String :=
  String.intercalate " "
    (entities.foldr
      (fun st acc => strLower (entityNamePart st.entity_id) :: strLower (st.friendly_name.getD "") :: acc)
      [])

/-- Number of (distinct) signal keywords occurring in `text`. -/
def countSignals (signals : List String) (text : String) : Nat :=
  signals.countP (fun sig => pyIn sig text)

/-- Python `max(xs, key=first)` on a nonempty list: keeps the earliest
element on ties (replacement only on strictly greater key). -/
def pyMaxFirst (x : Nat × AmperaDeviceType) (xs : List (Nat × AmperaDeviceType)) :
    Nat × AmperaDeviceType :=
  xs.foldl (fun acc y => if acc.1 < y.1 then y else acc) x

/-- Tier 2: semantic signal scoring (`_detect_device_type_from_signals`). -/
def detectDeviceTypeFromSignals (entities : List HAState) : Option AmperaDeviceType :=
  let all_text := signalText entities
  let ev_charger_matches := countSignals EV_CHARGER_SIGNALS all_text
  let water_heater_matches := countSignals WATER_HEATER_SIGNALS all_text
  let ams_meter_matches := countSignals AMS_POWER_METER_SIGNALS all_text
  let best_match := pyMaxFirst (ev_charger_matches, .ev_charger)
    [(water_heater_matches, .water_heater), (ams_meter_matches, .power_meter)]
  if 2 ≤ best_match.1 then some best_match.2 else none

/-- Tier-3 search text: device name, manufacturer, friendly names and
entity name parts, with falsy parts removed, space-joined, lowercased. -/
def tierThreeText (device_name manufacturer : Option String) (entities : List HAState) : String :=
  let parts := [device_name.getD "", manufacturer.getD ""]
    ++ entities.map (fun e => e.friendly_name.getD "")
    ++ entities.map (fun e => entityNamePart e.entity_id)
  strLower (String.intercalate " " (parts.filter (fun s => s ≠ "")))

/-- The full three-tier classifier (`_determine_device_type`). -/
def determineDeviceType (platformOf : String → Option String) (device_name : Option String)
    (entities : List HAState) (manufacturer : Option String) : AmperaDeviceType :=
  match detectDeviceTypeFromIntegration platformOf entities with
  | some t => t
  | none =>
    match detectDeviceTypeFromSignals entities with
    | some t => t
    | none =>
      let search_text := tierThreeText device_name manufacturer entities
      if EV_CHARGER_KEYWORDS.any (fun kw => pyIn kw search_text) then .ev_charger
      else if entities.any (fun e => pyStarts e.entity_id "water_heater.") then .water_heater
      else if WATER_HEATER_KEYWORDS.any (fun kw => pyIn kw search_text) then .water_heater
      else if AMS_KEYWORDS.any (fun kw => pyIn kw search_text) then .power_meter
      else if entities.any (fun e => pyStarts e.entity_id "climate.") then .climate
      else if entities.any (fun e => pyStarts e.entity_id "switch.") then .switch
      else if entities.any (fun e => e.device_class = some "power" || e.device_class = some "energy") then .power_meter
      else .sensor

/-! ## Control-only filter (`_is_control_only_device`) -/

/-- Scan of the entity list: `(has_sensors, switch_entities)`.  The Python
loop breaks at the first sensor-domain entity; the collected switch list is
then unused because `has_sensors` short-circuits the result. -/
def controlOnlyScan : List HAState → Bool × List HAState
  | [] => (false, [])
  | st :: rest =>
    let d := entityDomain st.entity_id
    if d = "sensor" then (true, [])
    else
      let scan := controlOnlyScan rest
      if d = "switch" || d = "input_boolean" || d = "input_number" || d = "input_select" then
        (scan.1, st :: scan.2)
      else (scan.1, scan.2)

/-- The `control_keywords` set of `_is_control_only_device`. -/
def controlKeywords : List String :=
  ["ev", "charger", "lader", "elbil", "charging",
   "water", "heater", "varmtvann", "bereder", "boiler",
   "smart", "power", "enable", "disable", "boost", "eco"]

/-- `_is_control_only_device`: no sensors, only switch-like entities whose
names contain control keywords. -/
def isControlOnlyDevice (entities : List HAState) : Bool :=
  let scan := controlOnlyScan entities
  if scan.1 then false
  else if scan.2.isEmpty then false
  else scan.2.any (fun st =>
    let search_text := strLower (entityNamePart st.entity_id) ++ " " ++ strLower (st.friendly_name.getD "")
    controlKeywords.any (fun kw => pyIn kw search_text))

/-! ## Capability accumulation shared by both device builders -/

/-- Loop accumulator of `_build_device_from_entities` /
`_build_orphan_group_device`: capability list, capability→entity map and
the primary-entity tracking variables. -/
structure CapAcc where
  capabilities : List AmperaCapability
  entity_mapping : List (String × String)
  best_power : String
  best_consumption : String
deriving DecidableEq, Repr

/-- One loop iteration once a capability has been extracted: dedup-add the
capability, record the entity in `entity_mapping`, and track power
entities for primary selection. -/
def capAdd (acc : CapAcc) (st : HAState) (cap : AmperaCapability) : CapAcc :=
  let acc1 :=
    if acc.capabilities.contains cap then acc
    else { acc with
           capabilities := acc.capabilities ++ [cap],
           entity_mapping := assocSet acc.entity_mapping (capValue cap) st.entity_id }
  if cap = AmperaCapability.power then
    let friendly_name := strLower (st.friendly_name.getD "")
    let entity_id_lower := strLower st.entity_id
    if pyIn "consumption" friendly_name || pyIn "consumption" entity_id_lower then
      { acc1 with best_consumption := st.entity_id }
    else if pyIn "total" friendly_name || pyIn "total" entity_id_lower then
      { acc1 with best_consumption := st.entity_id }
    else if acc1.best_power = "" then { acc1 with best_power := st.entity_id }
    else acc1
  else acc1

/-- Fallback device name: first entity's friendly name, else its id. -/
def firstEntityFallbackName (entities : List HAState) : String :=
  match entities with
  | [] => ""
  | e :: _ => e.friendly_name.getD e.entity_id

/-- `_build_device_from_entities`: build one `DiscoveredDevice` from a
parent-device entity cluster.  `info` is the device-registry lookup
(name, manufacturer, model); `platformOf` the entity-registry platform
lookup. -/
def buildDeviceFromEntities (info : String → Option String × Option String × Option String)
    (platformOf : String → Option String) (device_id : String)
    (entities : List HAState) : Option DiscoveredDevice :=
  if entities.isEmpty then none
  else if isControlOnlyDevice entities then none
  else
    let dInfo := info device_id
    let device_name := dInfo.1
    let manufacturer := dInfo.2.1
    let model := dInfo.2.2
    let device_type := determineDeviceType platformOf device_name entities manufacturer
    let acc := entities.foldl (fun a st =>
      match analyzeEntityCapability st with
      | (none, _) => a
      | (some cap, _) => capAdd a st cap) ⟨[], [], "", ""⟩
    let primary_entity_id :=
      if acc.best_consumption ≠ "" then acc.best_consumption
      else if acc.best_power ≠ "" then acc.best_power
      else match entities with
        | [] => ""
        | e :: _ => e.entity_id
    if acc.capabilities.isEmpty then none
    else
      let name :=
        match device_name with
        | some n => if n = "" then firstEntityFallbackName entities else n
        | none => firstEntityFallbackName entities
      some { ha_device_id := device_id, name := name, device_type := device_type,
             capabilities := acc.capabilities, entity_mapping := acc.entity_mapping,
             primary_entity_id := primary_entity_id,
             manufacturer := manufacturer, model := model }

/-! ## Orphan grouping (`_detect_orphan_device_type`, `_detect_orphan_switch_type`,
`_group_orphan_entities`, `_build_orphan_group_device`) -/

/-- `_detect_orphan_device_type`: group id for an orphan sensor entity. -/
def detectOrphanDeviceType (platformOf : String → Option String) (st : HAState)
    (device_class : Option String) : String :=
  let entity_id := st.entity_id
  let domain := entityDomain entity_id
  let entity_name := strLower (entityNamePart entity_id)
  let friendly_name := strLower (st.friendly_name.getD "")
  let fromPlatform : Option String :=
    match platformOf entity_id with
    | none => none
    | some platform =>
      if platform = "" then none
      else
        let pl := strLower platform
        if KNOWN_EV_CHARGER_INTEGRATIONS.contains pl then some "virtual_ev_charger"
        else if KNOWN_WATER_HEATER_INTEGRATIONS.contains pl then some "virtual_water_heater"
        else if KNOWN_POWER_METER_INTEGRATIONS.contains pl then some "virtual_power_meter"
        else none
  match fromPlatform with
  | some g => g
  | none =>
    let search_text := entity_name ++ " " ++ friendly_name
    let ev_matches := countSignals EV_CHARGER_SIGNALS search_text
    let wh_matches := countSignals WATER_HEATER_SIGNALS search_text
    let ams_matches := countSignals AMS_POWER_METER_SIGNALS search_text
    if 2 ≤ ev_matches then "virtual_ev_charger"
    else if 2 ≤ wh_matches then "virtual_water_heater"
    else if 2 ≤ ams_matches then "virtual_power_meter"
    else if EV_CHARGER_KEYWORDS.any (fun kw => pyIn kw search_text) then "virtual_ev_charger"
    else if WATER_HEATER_KEYWORDS.any (fun kw => pyIn kw search_text) then "virtual_water_heater"
    else if domain = "water_heater" then "virtual_water_heater"
    else if (match device_class with
             | some dc => dc = "power" || dc = "energy" || dc = "voltage" || dc = "current"
             | none => false) then "virtual_power_meter"
    else if device_class = some "temperature" then
      if WATER_HEATER_KEYWORDS.any (fun kw => pyIn kw search_text) then "virtual_water_heater"
      else "orphan_" ++ entity_id
    else "orphan_" ++ entity_id

/-- `_detect_orphan_switch_type`: group id for an orphan switch entity,
or a `skip_`-prefixed id when no device association is found. -/
def detectOrphanSwitchType (platformOf : String → Option String) (st : HAState) : String :=
  let entity_id := st.entity_id
  let entity_name := strLower (entityNamePart entity_id)
  let friendly_name := strLower (st.friendly_name.getD "")
  let search_text := entity_name ++ " " ++ friendly_name
  let fromPlatform : Option String :=
    match platformOf entity_id with
    | none => none
    | some platform =>
      if platform = "" then none
      else
        let pl := strLower platform
        if KNOWN_EV_CHARGER_INTEGRATIONS.contains pl then some "virtual_ev_charger"
        else if KNOWN_WATER_HEATER_INTEGRATIONS.contains pl then some "virtual_water_heater"
        else none
  match fromPlatform with
  | some g => g
  | none =>
    if (["ev", "charger", "lader", "elbil", "easee", "zaptec", "wallbox"] : List String).any
        (fun kw => pyIn kw search_text) then "virtual_ev_charger"
    else if (["water", "heater", "varmtvann", "bereder", "boiler", "hot_water"] : List String).any
        (fun kw => pyIn kw search_text) then "virtual_water_heater"
    else "skip_" ++ entity_id

/-- `groups.setdefault(group_id, []).append(v)` on the orphan-group dict. -/
def groupsAdd (gs : List (String × List (HAState × AmperaCapability))) (k : String)
    (v : HAState × AmperaCapability) : List (String × List (HAState × AmperaCapability)) :=
  match sfind gs k with
  | some old => assocSet gs k (old ++ [v])
  | none => gs ++ [(k, [v])]

/-- `_group_orphan_entities`: cluster orphan entities into virtual groups. -/
def groupOrphanEntities (platformOf : String → Option String) (orphan_entities : List HAState) :
    List (String × List (HAState × AmperaCapability)) :=
  orphan_entities.foldl (fun groups st =>
    match analyzeEntityCapability st with
    | (none, _) => groups
    | (some capability, device_class) =>
      let domain := entityDomain st.entity_id
      let group_id :=
        if domain = "sensor" then detectOrphanDeviceType platformOf st device_class
        else if domain = "water_heater" then "virtual_water_heater"
        else if domain = "climate" then "virtual_climate"
        else if domain = "switch" then detectOrphanSwitchType platformOf st
        else "orphan_" ++ st.entity_id
      groupsAdd groups group_id (st, capability)) []

/-- First entity of the group with a truthy friendly name, if any. -/
def firstNonEmptyFriendly : List (HAState × AmperaCapability) → Option String
  | [] => none
  | (st, _) :: rest =>
    let f := st.friendly_name.getD ""
    if f = "" then firstNonEmptyFriendly rest else some f

/-- Name selection for the virtual power-meter group. -/
def powerMeterGroupName (entities : List (HAState × AmperaCapability)) : String :=
  match firstNonEmptyFriendly entities with
  | none => "Power Meter"
  | some friendly =>
    let base := pyStrip ((friendly.replace "Power" "").replace "Energy" "")
    if base = "" then "Power Meter" else base ++ " Power Meter"

/-- Python `str.title()` for ASCII text (each alphabetic run capitalized). -/
def titleCaseGo : Bool → List Char → List Char
  | _, [] => []
  | prevAlpha, c :: cs =>
    let c2 := if c.isAlpha then (if prevAlpha then c.toLower else c.toUpper) else c
    c2 :: titleCaseGo c.isAlpha cs

/-- Python `s.title()`. -/
def titleCase (s : String) : String := ⟨titleCaseGo false s.data⟩

/-- `_build_orphan_group_device`: build a virtual `DiscoveredDevice` from a
grouped orphan cluster. -/
def buildOrphanGroupDevice (group_id : String) (entities : List (HAState × AmperaCapability)) :
    Option DiscoveredDevice :=
  if entities.isEmpty then none
  else if pyStarts group_id "skip_" then none
  else
    let acc := entities.foldl (fun a e => capAdd a e.1 e.2) ⟨[], [], "", ""⟩
    let primary_entity_id :=
      if acc.best_consumption ≠ "" then acc.best_consumption
      else if acc.best_power ≠ "" then acc.best_power
      else match entities with
        | [] => ""
        | e :: _ => e.1.entity_id
    if acc.capabilities.isEmpty then none
    else
      let td : AmperaDeviceType × String :=
        if group_id = "virtual_power_meter" then (.power_meter, powerMeterGroupName entities)
        else if group_id = "virtual_water_heater" then (.water_heater, "Water Heater")
        else if group_id = "virtual_ev_charger" then (.ev_charger, "EV Charger")
        else if group_id = "virtual_climate" then (.climate, "Climate Control")
        else if pyStarts group_id "virtual_switch_" then
          (.switch, titleCase ((group_id.replace "virtual_switch_" "").replace "_" " "))
        else
          (.sensor, match entities with
            | [] => ""
            | e :: _ => e.1.friendly_name.getD e.1.entity_id)
      some { ha_device_id := group_id, name := td.2, device_type := td.1,
             capabilities := acc.capabilities, entity_mapping := acc.entity_mapping,
             primary_entity_id := primary_entity_id }

/-! ## Telemetry push pipeline (`push_service.py`) -/

/-- `EntityMapping` dataclass: one HA entity's remote device and capability. -/
structure EntityMapping where
  device_id : String
  capability : String
  ha_device_id : String
deriving DecidableEq, Repr

/-- A Python value appearing in a reading dict: string, number or boolean.
Readings store floats (`ℚ` here), strings and booleans only. -/
inductive PVal where
  | s : String → PVal
  | n : ℚ → PVal
  | b : Bool → PVal
deriving DecidableEq, Repr

/-- One reading dict (field name → value). -/
abbrev Reading := List (String × PVal)

/-- The pending-readings map, keyed by remote device id
(`self._pending_readings`). -/
abbrev PendingMap := List (String × Reading)

/-- `MAX_BATCH_SIZE` constant. -/
def MAX_BATCH_SIZE : Nat := 50

/-- Python `base.update(upd)` on reading dicts. -/
def dictUpdate (base upd : Reading) : Reading :=
  upd.foldl (fun b kv => assocSet b kv.1 kv.2) base

/-- The device id under which a drained reading is re-queued on flush
failure: `reading.get("device_id")` followed by the truthiness check
`if device_id:`.  Pending entries are always created with a non-missing
string `device_id` field (see `addPendingReading`), so the non-string
cases collapse to `none` (dropped) here, matching the falsy branch. -/
def readingId (r : Reading) : Option String :=
  match sfind r "device_id" with
  | some (PVal.s d) => if d = "" then none else some d
  | _ => none

/-- Re-insertion of one drained reading on flush failure
(`self._pending_readings[device_id] = reading`). -/
def requeueReading (m : PendingMap) (r : Reading) : PendingMap :=
  match readingId r with
  | some d => assocSet m d r
  | none => m

/-- Requeue of all drained readings, in drain order. -/
def requeueDrained (m : PendingMap) (readings : List Reading) : PendingMap :=
  readings.foldl requeueReading m

/-- Atomic drain step of `_flush_pending` (under `self._pending_lock`):
returns the cleared map and the drained `list(dict.values())`. -/
def drainReadings (p : PendingMap) : PendingMap × List Reading :=
  if p.isEmpty then (p, []) else ([], p.map Prod.snd)

/-- `_flush_pending` as observed on the pending map: drain, POST the batch
(`netOk` is the outcome of `async_push_telemetry`), and on failure
re-insert each drained reading keyed by its `device_id` field. -/
def flushPending (p : PendingMap) (netOk : Bool) : PendingMap :=
  let dr := drainReadings p
  if dr.2.isEmpty then dr.1
  else if netOk then dr.1
  else requeueDrained dr.1 dr.2

/-- The single measurement field written by the capability dispatch chain
of `_format_sensor_reading`, with its unit normalization (kW→W for the
power capabilities, Wh/MWh→kWh for the energy capabilities). -/
def sensorCapField (capability : String) (unit : String) (value : ℚ) : Reading :=
  if capability = "power" then
    [("power_w", PVal.n (if unit = "kW" then value * 1000 else value))]
  else if capability = "power_l1" then
    [("power_l1_w", PVal.n (if unit = "kW" then value * 1000 else value))]
  else if capability = "power_l2" then
    [("power_l2_w", PVal.n (if unit = "kW" then value * 1000 else value))]
  else if capability = "power_l3" then
    [("power_l3_w", PVal.n (if unit = "kW" then value * 1000 else value))]
  else if capability = "energy" then
    [("energy_kwh", PVal.n (if unit = "Wh" then value / 1000 else if unit = "MWh" then value * 1000 else value))]
  else if capability = "energy_import" then
    [("energy_import_kwh", PVal.n (if unit = "Wh" then value / 1000 else if unit = "MWh" then value * 1000 else value))]
  else if capability = "energy_export" then
    [("energy_export_kwh", PVal.n (if unit = "Wh" then value / 1000 else if unit = "MWh" then value * 1000 else value))]
  else if capability = "voltage" || capability = "voltage_l1" then [("voltage_l1", PVal.n value)]
  else if capability = "voltage_l2" then [("voltage_l2", PVal.n value)]
  else if capability = "voltage_l3" then [("voltage_l3", PVal.n value)]
  else if capability = "current" || capability = "current_l1" then [("current_l1", PVal.n value)]
  else if capability = "current_l2" then [("current_l2", PVal.n value)]
  else if capability = "current_l3" then [("current_l3", PVal.n value)]
  else if capability = "temperature" then [("temperature_c", PVal.n value)]
  else if capability = "session_energy" then
    [("session_energy_kwh", PVal.n (if unit = "Wh" then value / 1000 else if unit = "MWh" then value * 1000 else value))]
  else if capability = "charge_limit" then [("charge_limit_a", PVal.n (pyInt value : ℚ))]
  else []

/-- `_format_sensor_reading`.  `hassStates` is the `hass.states.get`
oracle and `deviceOnOff` the service's device→on_off-entity map used for
the `is_on` enrichment.  A state that does not parse as a float leaves
the base reading unchanged (the Python early `return reading`). -/
def formatSensorReading (hassStates : String → Option HAState)
    (deviceOnOff : List (String × String)) (reading : Reading) (st : HAState)
    (mapping : EntityMapping) : Reading :=
  match pyFloat st.state with
  | none => reading
  | some value =>
    let unit := st.unit_of_measurement.getD ""
    let withOn :=
      match sfind deviceOnOff mapping.device_id with
      | none => reading
      | some on_off_entity_id =>
        match hassStates on_off_entity_id with
        | none => reading
        | some os =>
          if os.state = "unavailable" || os.state = "unknown" then reading
          else assocSet reading "is_on" (PVal.b (os.state = "on"))
    dictUpdate withOn (sensorCapField mapping.capability unit value)

/-- `_format_water_heater_reading`. -/
def formatWaterHeaterReading (reading : Reading) (st : HAState) : Reading :=
  let r1 := match st.current_temperature with
    | some t => assocSet reading "temperature_c" (PVal.n t)
    | none => reading
  let r2 := match st.temperature with
    | some t => assocSet r1 "target_temperature_c" (PVal.n t)
    | none => r1
  assocSet r2 "is_on" (PVal.b (!(st.state = "off" || st.state = "idle")))

/-- `_format_switch_reading`. -/
def formatSwitchReading (reading : Reading) (st : HAState) : Reading :=
  let r1 := assocSet reading "is_on" (PVal.b (st.state = "on"))
  let r2 := match st.current_power_w with
    | some p => assocSet r1 "power_w" (PVal.n p)
    | none => r1
  match st.total_energy_kwh with
  | some e => assocSet r2 "energy_kwh" (PVal.n e)
  | none => r2

/-- `_format_climate_reading`. -/
def formatClimateReading (reading : Reading) (st : HAState) : Reading :=
  let r1 := match st.current_temperature with
    | some t => assocSet reading "temperature_c" (PVal.n t)
    | none => reading
  let r2 := match st.temperature with
    | some t => assocSet r1 "target_temperature_c" (PVal.n t)
    | none => r1
  assocSet r2 "is_on" (PVal.b (!(st.state = "off")))

/-- `_format_reading`: base metadata dict, domain dispatch, and the
more-than-metadata check (`len(reading) > 2`). -/
def formatReading (hassStates : String → Option HAState)
    (deviceOnOff : List (String × String)) (entity_id : String) (st : HAState)
    (mapping : EntityMapping) : Option Reading :=
  let base : Reading := [("ha_entity_id", PVal.s entity_id), ("capability", PVal.s mapping.capability)]
  let domain := entityDomain entity_id
  let r :=
    if domain = "sensor" then formatSensorReading hassStates deviceOnOff base st mapping
    else if domain = "water_heater" then formatWaterHeaterReading base st
    else if domain = "switch" then formatSwitchReading base st
    else if domain = "climate" then formatClimateReading base st
    else base
  if 2 < r.length then some r else none

/-- `_add_pending_reading`: merge the reading into the device's pending
entry (creating it with its `device_id` field first), then force a flush
when the batch is full.  `netOk` is the outcome of the telemetry POST
should that forced flush happen. -/
def addPendingReading (p : PendingMap) (device_id : String) (reading : Reading)
    (netOk : Bool) : PendingMap :=
  let base : Reading :=
    match sfind p device_id with
    | none => [("device_id", PVal.s device_id)]
    | some existing => existing
  let p2 := assocSet p device_id (dictUpdate base reading)
  if MAX_BATCH_SIZE ≤ p2.length then flushPending p2 netOk else p2

/-- `_build_device_on_off_map`: device id → on_off entity id. -/
def buildDeviceOnOffMap (entity_mappings : List (String × EntityMapping)) :
    List (String × String) :=
  entity_mappings.foldl
    (fun acc em => if em.2.capability = "on_off" then assocSet acc em.2.device_id em.1 else acc)
    []

/-- The push service's mapping-related state: the entity-mapping table,
the derived device→on_off map, and the pending-readings map. -/
structure PushState where
  entityMappings : List (String × EntityMapping)
  deviceOnOffEntities : List (String × String)
  pending : PendingMap
deriving DecidableEq, Repr

/-- The remote device ids of the published entity-mapping table. -/
def deviceIds (entity_mappings : List (String × EntityMapping)) : List String :=
  entity_mappings.map (fun em => em.2.device_id)

/-- `_handle_state_change`: drop events with no state, unavailable/unknown
state, or no entity mapping; format the reading; merge it into the
pending map.  The optional on/off event-service report (a fire-and-forget
task) does not touch the mapping or pending state and is not modelled. -/
def handleStateChange (hassStates : String → Option HAState) (netOk : Bool)
    (st : PushState) (entity_id : String) (new_state : Option HAState) : PushState :=
  match new_state with
  | none => st
  | some ns =>
    if entity_id = "" then st
    else if ns.state = "unavailable" || ns.state = "unknown" then st
    else
      match sfind st.entityMappings entity_id with
      | none => st
      | some mapping =>
        match formatReading hassStates st.deviceOnOffEntities entity_id ns mapping with
        | none => st
        | some reading =>
          { st with pending := addPendingReading st.pending mapping.device_id reading netOk }

/-- `update_entity_mappings`: replace the entity-mapping table and rebuild
the on_off map.  The event-bus re-subscription does not touch the pending
map, which is left as is. -/
def updateEntityMappings (st : PushState) (entity_mappings : List (String × EntityMapping)) :
    PushState :=
  { st with entityMappings := entity_mappings,
            deviceOnOffEntities := buildDeviceOnOffMap entity_mappings }

/-! ## Mapping synchronizer (`device_sync_service.py`) -/

/-- The parsed response of `async_sync_devices`: the
`device_mappings` dict (ha_device_id → ampera_device_id) and the
created/updated/removed counters. -/
structure SyncResult where
  device_mappings : List (String × String)
  created : Nat
  updated : Nat
  removed : Nat
deriving DecidableEq, Repr

/-- The synchronizer's published state: `self._device_id_mappings` and
`self._entity_mappings`. -/
structure SyncServiceState where
  deviceIdMappings : List (String × String)
  entityMappings : List (String × EntityMapping)
deriving DecidableEq, Repr

/-- A registered sync callback; a `.error` result models the callback
raising (caught and logged by the sync loop). -/
abbrev SyncCallback :=
  List (String × String) → List (String × EntityMapping) → Except Unit Unit

/-- `_filter_selected_devices`: keep devices matching the selection by
ha_device_id, by primary entity id, or by any entity id in
`entity_mapping`.  An empty selection matches nothing. -/
def filterSelectedDevices (selected_device_ids : List String)
    (all_devices : List DiscoveredDevice) : List DiscoveredDevice :=
  if selected_device_ids.isEmpty then []
  else all_devices.filter (fun device =>
    selected_device_ids.contains device.ha_device_id
    || selected_device_ids.contains device.primary_entity_id
    || device.entity_mapping.any (fun kv => selected_device_ids.contains kv.2))

/-- `_build_entity_mappings`: entity id → `EntityMapping`, one entry per
(capability, entity id) pair of each device whose ha_device_id has a
truthy remote id in the returned map. -/
def buildEntityMappings (devices : List DiscoveredDevice)
    (device_id_mappings : List (String × String)) : List (String × EntityMapping) :=
  devices.foldl (fun acc device =>
    match sfind device_id_mappings device.ha_device_id with
    | none => acc
    | some ampera_device_id =>
      if ampera_device_id = "" then acc
      else
        device.entity_mapping.foldl (fun acc2 kv =>
          assocSet acc2 kv.2
            { device_id := ampera_device_id, capability := kv.1,
              ha_device_id := device.ha_device_id }) acc) []

/-- One `_sync_devices` pass.  `discovery` is the outcome of
`discover_devices` (a raised exception is `.error`), `api` the outcome of
`async_sync_devices` on the selected devices (serialization to the wire
dicts is a bijective boundary step and not modelled), `callbacks` the
registered sync callbacks.  Returns the new service state and the result
of each callback invocation; callback exceptions are caught one by one,
so every callback runs and nothing propagates.  The pass swallows any
discovery/network error and leaves the state untouched (`except` block). -/
def syncDevicesPass (running : Bool) (discovery : Except Unit (List DiscoveredDevice))
    (selected_device_ids : List String)
    (api : List DiscoveredDevice → Except Unit SyncResult)
    (callbacks : List SyncCallback) (st : SyncServiceState) :
    SyncServiceState × List (Except Unit Unit) :=
  if !running then (st, [])
  else
    match discovery with
    | .error _ => (st, [])
    | .ok all_devices =>
      let selected_devices := filterSelectedDevices selected_device_ids all_devices
      if selected_devices.isEmpty then (st, [])
      else
        match api selected_devices with
        | .error _ => (st, [])
        | .ok result =>
          let st2 :=
            if result.device_mappings.isEmpty then st
            else { deviceIdMappings := result.device_mappings,
                   entityMappings := buildEntityMappings selected_devices result.device_mappings }
          (st2, callbacks.map (fun cb => cb st2.deviceIdMappings st2.entityMappings))

/-! ## Verification predicates and concrete scenario inputs -/

/-- Well-formedness of the pending map: every entry's reading carries its
own map key in the `device_id` field.  This holds by construction: entries
are only created as `{"device_id": device_id}` and merged with formatted
readings, which never contain a `device_id` field. -/
def PendingWF (p : PendingMap) : Prop :=
  ∀ kv ∈ p, sfind kv.2 "device_id" = some (PVal.s kv.1)

instance (p : PendingMap) : Decidable (PendingWF p) := by
  unfold PendingWF; infer_instance

/-- Invariant of the capability-accumulation loop: no duplicate
capabilities, and the entity-mapping keys are exactly the capability
values, in order. -/
def CapInv (acc : CapAcc) : Prop :=
  acc.capabilities.Nodup ∧ acc.entity_mapping.map Prod.fst = acc.capabilities.map capValue

/-- The lone control switch of the control-only-exclusion scenario. -/
def evEnableSwitch : HAState := { entity_id := "switch.ev_charger_enable", state := "on" }

/-- Orphan AMS power sensor of the orphan-grouping scenario. -/
def hanPowerSensor : HAState :=
  { entity_id := "sensor.han_power", state := "1000", device_class := some "power" }

/-- Orphan AMS phase-voltage sensor of the orphan-grouping scenario. -/
def hanVoltageSensor : HAState :=
  { entity_id := "sensor.han_voltage_l1", state := "230", device_class := some "voltage" }

/-- The virtual power-meter device both orphan sensors collapse into. -/
def hanPowerMeterDevice : DiscoveredDevice :=
  { ha_device_id := "virtual_power_meter", name := "Power Meter",
    device_type := .power_meter,
    capabilities := [.power, .voltage_l1],
    entity_mapping := [("power", "sensor.han_power"), ("voltage_l1", "sensor.han_voltage_l1")],
    primary_entity_id := "sensor.han_power" }

/-- The power-meter device discovered from the single `sensor.han_power`
entity under parent device `dev1` (capability-invariant witness input). -/
def hanSingleDevice : DiscoveredDevice :=
  { ha_device_id := "dev1", name := "sensor.han_power",
    device_type := .power_meter,
    capabilities := [.power],
    entity_mapping := [("power", "sensor.han_power")],
    primary_entity_id := "sensor.han_power" }

/-- An entity whose combined text ties EV-charger and water-heater signal
counts at 2 ("charger"/"lader" vs "boiler"/"water_heater"). -/
def tieEntity : HAState :=
  { entity_id := "sensor.boiler_water_heater", state := "1",
    friendly_name := some "charger lader" }

/-- Entity mapping used in the push-service scenarios: entity
`sensor.p` feeds capability `power` of remote device `d1`. -/
def powerMapping : EntityMapping :=
  { device_id := "d1", capability := "power", ha_device_id := "hd1" }

/-- A drained pending reading for device `d1`. -/
def sampleReading : Reading :=
  [("device_id", PVal.s "d1"), ("ha_entity_id", PVal.s "sensor.p"),
   ("capability", PVal.s "power"), ("power_w", PVal.n 100)]

/-- A reading for `d1` recorded while a flush was in flight. -/
def inflightReading : Reading :=
  [("device_id", PVal.s "d1"), ("ha_entity_id", PVal.s "sensor.p"),
   ("capability", PVal.s "power"), ("power_w", PVal.n 999)]

/-- Push-service state with one mapped entity and one pending reading. -/
def samplePushState : PushState :=
  { entityMappings := [("sensor.p", powerMapping)],
    deviceOnOffEntities := [],
    pending := [("d1", sampleReading)] }

/-- Push-service state with one mapped entity and nothing pending. -/
def emptyPendingPushState : PushState :=
  { entityMappings := [("sensor.p", powerMapping)],
    deviceOnOffEntities := [],
    pending := [] }

/-- A new-state event for `sensor.p`: 2.5 kW. -/
def kwState : HAState :=
  { entity_id := "sensor.p", state := "2.5", unit_of_measurement := some "kW" }

/-- A new-state event for `sensor.p`: 1.5 kW (unit-conversion scenario). -/
def kwStateOnePointFive : HAState :=
  { entity_id := "sensor.p", state := "1.5", unit_of_measurement := some "kW" }

/-- The base reading dict `_format_reading` hands to the sensor formatter. -/
def sampleBaseReading : Reading :=
  [("ha_entity_id", PVal.s "sensor.p"), ("capability", PVal.s "power")]

/-- Device selected in the sync scenarios. -/
def syncedDevice : DiscoveredDevice :=
  { ha_device_id := "hd1", name := "Dev", device_type := .power_meter,
    capabilities := [.power], entity_mapping := [("power", "sensor.p")],
    primary_entity_id := "sensor.p" }

/-- Prior synchronizer state holding a previously published table. -/
def priorSyncState : SyncServiceState :=
  { deviceIdMappings := [("hd1", "old-remote")],
    entityMappings := [("sensor.p",
      { device_id := "old-remote", capability := "power", ha_device_id := "hd1" })] }

/-- Backend responding success with an empty `device_mappings` dict. -/
def apiEmptyMap : List DiscoveredDevice → Except Unit SyncResult :=
  fun _ => .ok { device_mappings := [], created := 0, updated := 1, removed := 0 }

/-- Backend failing with a connection error. -/
def apiFailing : List DiscoveredDevice → Except Unit SyncResult :=
  fun _ => .error ()

/-- Backend responding success with a fresh device-id map. -/
def apiFreshMap : List DiscoveredDevice → Except Unit SyncResult :=
  fun _ => .ok { device_mappings := [("hd1", "remote-42")], created := 1, updated := 0, removed := 0 }

/-- A registered sync callback that raises (to observe that callback
exceptions are caught and every callback still runs). -/
def raisingCallback : SyncCallback := fun _ _ => .error ()

/-! ## Association-list lemmas -/

theorem sfind_assocSet_self {β : Type} (m : List (String × β)) (k : String) (v : β) :
    sfind (assocSet m k v) k = some v := by
  induction m with
  | nil => simp [assocSet, sfind]
  | cons kv rest ih =>
    obtain ⟨k1, v1⟩ := kv
    by_cases hk : k1 = k
    · simp [assocSet, hk, sfind]
    · simp [assocSet, hk, sfind, ih]

theorem sfind_assocSet_ne {β : Type} (m : List (String × β)) (k k' : String) (v : β)
    (h : k' ≠ k) : sfind (assocSet m k v) k' = sfind m k' := by
  induction m with
  | nil => simp [assocSet, sfind, Ne.symm h]
  | cons kv rest ih =>
    obtain ⟨k1, v1⟩ := kv
    by_cases hk : k1 = k
    · subst hk
      simp [assocSet, sfind, Ne.symm h]
    · by_cases hk' : k1 = k'
      · simp [assocSet, hk, sfind, hk', h]
      · simp [assocSet, hk, sfind, hk', ih]

theorem sfind_eq_none_iff {β : Type} (m : List (String × β)) (k : String) :
    sfind m k = none ↔ k ∉ m.map Prod.fst := by
  induction m with
  | nil => simp [sfind]
  | cons kv rest ih =>
    obtain ⟨k1, v1⟩ := kv
    by_cases hk : k1 = k
    · simp [sfind, hk]
    · simp [sfind, hk, ih, Ne.symm hk]

theorem sfind_ne_none_of_mem {β : Type} {m : List (String × β)} {k : String} {v : β}
    (h : (k, v) ∈ m) : sfind m k ≠ none := by
  intro hnone
  rw [sfind_eq_none_iff] at hnone
  exact hnone (List.mem_map.mpr ⟨(k, v), h, rfl⟩)

theorem mem_of_sfind {β : Type} {m : List (String × β)} {k : String} {v : β}
    (h : sfind m k = some v) : (k, v) ∈ m := by
  induction m with
  | nil => simp [sfind] at h
  | cons kv rest ih =>
    obtain ⟨k1, v1⟩ := kv
    by_cases hk : k1 = k
    · rw [sfind, if_pos hk] at h
      subst hk
      simp_all
    · rw [sfind, if_neg hk] at h
      exact List.mem_cons_of_mem _ (ih h)

theorem assocSet_of_none {β : Type} {m : List (String × β)} {k : String} (v : β)
    (h : sfind m k = none) : assocSet m k v = m ++ [(k, v)] := by
  induction m with
  | nil => simp [assocSet]
  | cons kv rest ih =>
    obtain ⟨k1, v1⟩ := kv
    by_cases hk : k1 = k
    · simp [sfind, hk] at h
    · rw [sfind, if_neg hk] at h
      simp [assocSet, hk, ih h]

theorem mem_assocSet {β : Type} {m : List (String × β)} {k : String} {v : β} {x : String × β}
    (h : x ∈ assocSet m k v) : x ∈ m ∨ x = (k, v) := by
  induction m with
  | nil =>
    simp [assocSet] at h
    exact Or.inr h
  | cons kv rest ih =>
    obtain ⟨k1, v1⟩ := kv
    by_cases hk : k1 = k
    · rw [assocSet, if_pos hk] at h
      rcases List.mem_cons.mp h with h1 | h1
      · exact Or.inr h1
      · exact Or.inl (List.mem_cons_of_mem _ h1)
    · rw [assocSet, if_neg hk] at h
      rcases List.mem_cons.mp h with h1 | h1
      · exact Or.inl (h1 ▸ List.mem_cons_self _ _)
      · rcases ih h1 with h2 | h2
        · exact Or.inl (List.mem_cons_of_mem _ h2)
        · exact Or.inr h2

theorem sfind_assocSet_cases {β : Type} {m : List (String × β)} {k d : String} {v : β}
    (h : sfind (assocSet m d v) k ≠ none) : k = d ∨ sfind m k ≠ none := by
  by_cases hk : k = d
  · exact Or.inl hk
  · rw [sfind_assocSet_ne m d k v hk] at h
    exact Or.inr h

theorem sfind_append_none {β : Type} {a : List (String × β)} (b : List (String × β))
    {k : String} (h : sfind a k = none) : sfind (a ++ b) k = sfind b k := by
  induction a with
  | nil => simp
  | cons kv rest ih =>
    obtain ⟨k1, v1⟩ := kv
    by_cases hk : k1 = k
    · simp [sfind, hk] at h
    · rw [sfind, if_neg hk] at h
      rw [List.cons_append, sfind, if_neg hk]
      exact ih h

/-! ## Flush/requeue lemmas -/

theorem requeueDrained_no_id (rs : List Reading) (m : PendingMap) (k : String)
    (h : ∀ r ∈ rs, readingId r ≠ some k) :
    sfind (requeueDrained m rs) k = sfind m k := by
  induction rs generalizing m with
  | nil => rfl
  | cons r rest ih =>
    have hstep : sfind (requeueReading m r) k = sfind m k := by
      unfold requeueReading
      cases hid : readingId r with
      | none => rfl
      | some d =>
        have hdk : k ≠ d := by
          intro he
          exact h r (List.mem_cons_self _ _) (he ▸ hid)
        exact sfind_assocSet_ne m d k r hdk
    have : requeueDrained m (r :: rest) = requeueDrained (requeueReading m r) rest := rfl
    rw [this, ih _ (fun r' hr' => h r' (List.mem_cons_of_mem _ hr')), hstep]

theorem requeueDrained_ne_none (rs : List Reading) (m : PendingMap) (k : String)
    (h : sfind (requeueDrained m rs) k ≠ none) :
    sfind m k ≠ none ∨ ∃ r ∈ rs, readingId r = some k := by
  induction rs generalizing m with
  | nil => exact Or.inl h
  | cons r rest ih =>
    have h' : sfind (requeueDrained (requeueReading m r) rest) k ≠ none := h
    rcases ih (requeueReading m r) h' with h1 | ⟨r', hr', hid⟩
    · unfold requeueReading at h1
      cases hid : readingId r with
      | none =>
        rw [hid] at h1
        exact Or.inl h1
      | some d =>
        rw [hid] at h1
        rcases sfind_assocSet_cases h1 with rfl | h2
        · exact Or.inr ⟨r, List.mem_cons_self _ _, hid⟩
        · exact Or.inl h2
    · exact Or.inr ⟨r', List.mem_cons_of_mem _ hr', hid⟩

theorem requeueDrained_restores (p : PendingMap) (acc : PendingMap)
    (hnd : (p.map Prod.fst).Nodup) (hwf : PendingWF p)
    (hne : ∀ kv ∈ p, kv.1 ≠ "")
    (hacc : ∀ kv ∈ p, sfind acc kv.1 = none) :
    requeueDrained acc (p.map Prod.snd) = acc ++ p := by
  induction p generalizing acc with
  | nil => simp [requeueDrained]
  | cons kv rest ih =>
    obtain ⟨k, r⟩ := kv
    have hid : readingId r = some k := by
      unfold readingId
      rw [hwf (k, r) (List.mem_cons_self _ _)]
      simp [hne (k, r) (List.mem_cons_self _ _)]
    have hstep : requeueReading acc r = acc ++ [(k, r)] := by
      unfold requeueReading
      rw [hid]
      exact assocSet_of_none r (hacc (k, r) (List.mem_cons_self _ _))
    have hmain : requeueDrained acc (((k, r) :: rest).map Prod.snd)
        = requeueDrained (acc ++ [(k, r)]) (rest.map Prod.snd) := by
      show requeueDrained (requeueReading acc r) (rest.map Prod.snd)
        = requeueDrained (acc ++ [(k, r)]) (rest.map Prod.snd)
      rw [hstep]
    rw [hmain]
    have hnd' : (rest.map Prod.fst).Nodup := (List.nodup_cons.mp hnd).2
    have hknot : k ∉ rest.map Prod.fst := by
      simpa using (List.nodup_cons.mp hnd).1
    have hacc' : ∀ kv ∈ rest, sfind (acc ++ [(k, r)]) kv.1 = none := by
      intro kv2 hkv2
      have h1 : sfind acc kv2.1 = none := hacc kv2 (List.mem_cons_of_mem _ hkv2)
      rw [sfind_append_none _ h1]
      have hk2 : k ≠ kv2.1 := by
        intro he
        exact hknot (he ▸ List.mem_map.mpr ⟨kv2, hkv2, rfl⟩)
      simp [sfind, hk2]
    rw [ih (acc ++ [(k, r)]) hnd'
      (fun kv2 h2 => hwf kv2 (List.mem_cons_of_mem _ h2))
      (fun kv2 h2 => hne kv2 (List.mem_cons_of_mem _ h2)) hacc']
    simp

theorem requeueDrained_last_wins (drained : List Reading) (mid : PendingMap)
    (k : String) (r : Reading)
    (hnd : (drained.filterMap readingId).Nodup)
    (hmem : r ∈ drained) (hid : readingId r = some k) :
    sfind (requeueDrained mid drained) k = some r := by
  induction drained generalizing mid with
  | nil => simp at hmem
  | cons r0 rest ih =>
    rcases List.mem_cons.mp hmem with rfl | hmem'
    · have hconsfm : (r :: rest).filterMap readingId = k :: rest.filterMap readingId := by
        simp only [List.filterMap_cons, hid]
      rw [hconsfm] at hnd
      have hrest : ∀ r' ∈ rest, readingId r' ≠ some k := by
        intro r' hr' he
        exact (List.nodup_cons.mp hnd).1 (List.mem_filterMap.mpr ⟨r', hr', he⟩)
      have hunf : requeueDrained mid (r :: rest) = requeueDrained (requeueReading mid r) rest := rfl
      rw [hunf, requeueDrained_no_id rest _ k hrest]
      unfold requeueReading
      rw [hid]
      exact sfind_assocSet_self mid k r
    · have hnd' : (rest.filterMap readingId).Nodup := by
        cases hid0 : readingId r0 with
        | none => simpa only [List.filterMap_cons, hid0] using hnd
        | some d =>
          have hconsfm : (r0 :: rest).filterMap readingId = d :: rest.filterMap readingId := by
            simp only [List.filterMap_cons, hid0]
          rw [hconsfm] at hnd
          exact (List.nodup_cons.mp hnd).2
      exact ih (requeueReading mid r0) hnd' hmem'

/-! ## Reading-dict lemmas: formatted readings never bind `device_id` -/

theorem sfind_dictUpdate_none (base upd : Reading) (k : String)
    (h : sfind upd k = none) : sfind (dictUpdate base upd) k = sfind base k := by
  induction upd generalizing base with
  | nil => rfl
  | cons kv rest ih =>
    obtain ⟨k1, v1⟩ := kv
    by_cases hk : k1 = k
    · simp [sfind, hk] at h
    · rw [sfind, if_neg hk] at h
      have hstep : dictUpdate base ((k1, v1) :: rest) = dictUpdate (assocSet base k1 v1) rest := rfl
      rw [hstep, ih _ h, sfind_assocSet_ne base k1 k v1 (fun he => hk he.symm)]

theorem sensorCapField_no_device_id (c u : String) (v : ℚ) :
    sfind (sensorCapField c u v) "device_id" = none := by
  unfold sensorCapField
  by_cases h1 : c = "power"
  · rw [if_pos h1]; rfl
  rw [if_neg h1]
  by_cases h2 : c = "power_l1"
  · rw [if_pos h2]; rfl
  rw [if_neg h2]
  by_cases h3 : c = "power_l2"
  · rw [if_pos h3]; rfl
  rw [if_neg h3]
  by_cases h4 : c = "power_l3"
  · rw [if_pos h4]; rfl
  rw [if_neg h4]
  by_cases h5 : c = "energy"
  · rw [if_pos h5]; rfl
  rw [if_neg h5]
  by_cases h6 : c = "energy_import"
  · rw [if_pos h6]; rfl
  rw [if_neg h6]
  by_cases h7 : c = "energy_export"
  · rw [if_pos h7]; rfl
  rw [if_neg h7]
  by_cases h8 : (decide (c = "voltage") || decide (c = "voltage_l1")) = true
  · rw [if_pos h8]; rfl
  rw [if_neg h8]
  by_cases h9 : c = "voltage_l2"
  · rw [if_pos h9]; rfl
  rw [if_neg h9]
  by_cases h10 : c = "voltage_l3"
  · rw [if_pos h10]; rfl
  rw [if_neg h10]
  by_cases h11 : (decide (c = "current") || decide (c = "current_l1")) = true
  · rw [if_pos h11]; rfl
  rw [if_neg h11]
  by_cases h12 : c = "current_l2"
  · rw [if_pos h12]; rfl
  rw [if_neg h12]
  by_cases h13 : c = "current_l3"
  · rw [if_pos h13]; rfl
  rw [if_neg h13]
  by_cases h14 : c = "temperature"
  · rw [if_pos h14]; rfl
  rw [if_neg h14]
  by_cases h15 : c = "session_energy"
  · rw [if_pos h15]; rfl
  rw [if_neg h15]
  by_cases h16 : c = "charge_limit"
  · rw [if_pos h16]; rfl
  rw [if_neg h16]
  rfl

theorem formatSensorReading_no_device_id (hs : String → Option HAState)
    (dof : List (String × String)) (reading : Reading) (st : HAState) (m : EntityMapping)
    (h : sfind reading "device_id" = none) :
    sfind (formatSensorReading hs dof reading st m) "device_id" = none := by
  unfold formatSensorReading
  cases hp : pyFloat st.state with
  | none => exact h
  | some v =>
    dsimp only
    cases hd : sfind dof m.device_id with
    | none =>
      dsimp only
      rw [sfind_dictUpdate_none _ _ _ (sensorCapField_no_device_id _ _ _)]
      exact h
    | some oid =>
      dsimp only
      cases ho : hs oid with
      | none =>
        dsimp only
        rw [sfind_dictUpdate_none _ _ _ (sensorCapField_no_device_id _ _ _)]
        exact h
      | some os =>
        dsimp only
        by_cases hu : (decide (os.state = "unavailable") || decide (os.state = "unknown")) = true
        · rw [if_pos hu, sfind_dictUpdate_none _ _ _ (sensorCapField_no_device_id _ _ _)]
          exact h
        · rw [if_neg hu, sfind_dictUpdate_none _ _ _ (sensorCapField_no_device_id _ _ _),
              sfind_assocSet_ne reading "is_on" "device_id" _ (by decide)]
          exact h

theorem formatWaterHeaterReading_no_device_id (reading : Reading) (st : HAState)
    (h : sfind reading "device_id" = none) :
    sfind (formatWaterHeaterReading reading st) "device_id" = none := by
  unfold formatWaterHeaterReading
  have h1 : ∀ r : Reading, sfind r "device_id" = none →
      sfind (assocSet r "is_on" (PVal.b (!(st.state = "off" || st.state = "idle"))))
        "device_id" = none := by
    intro r hr
    rw [sfind_assocSet_ne r "is_on" "device_id" _ (by decide)]
    exact hr
  cases st.current_temperature with
  | none =>
    cases st.temperature with
    | none => exact h1 _ h
    | some t =>
      apply h1
      rw [sfind_assocSet_ne reading "target_temperature_c" "device_id" _ (by decide)]
      exact h
  | some t =>
    have h2 : sfind (assocSet reading "temperature_c" (PVal.n t)) "device_id" = none := by
      rw [sfind_assocSet_ne reading "temperature_c" "device_id" _ (by decide)]
      exact h
    cases st.temperature with
    | none => exact h1 _ h2
    | some t2 =>
      apply h1
      rw [sfind_assocSet_ne _ "target_temperature_c" "device_id" _ (by decide)]
      exact h2

theorem formatSwitchReading_no_device_id (reading : Reading) (st : HAState)
    (h : sfind reading "device_id" = none) :
    sfind (formatSwitchReading reading st) "device_id" = none := by
  unfold formatSwitchReading
  have h1 : sfind (assocSet reading "is_on" (PVal.b (st.state = "on"))) "device_id" = none := by
    rw [sfind_assocSet_ne reading "is_on" "device_id" _ (by decide)]
    exact h
  cases st.current_power_w with
  | none =>
    cases st.total_energy_kwh with
    | none => exact h1
    | some e =>
      rw [sfind_assocSet_ne _ "energy_kwh" "device_id" _ (by decide)]
      exact h1
  | some p =>
    have h2 : sfind (assocSet (assocSet reading "is_on" (PVal.b (st.state = "on")))
        "power_w" (PVal.n p)) "device_id" = none := by
      rw [sfind_assocSet_ne _ "power_w" "device_id" _ (by decide)]
      exact h1
    cases st.total_energy_kwh with
    | none => exact h2
    | some e =>
      rw [sfind_assocSet_ne _ "energy_kwh" "device_id" _ (by decide)]
      exact h2

theorem formatClimateReading_no_device_id (reading : Reading) (st : HAState)
    (h : sfind reading "device_id" = none) :
    sfind (formatClimateReading reading st) "device_id" = none := by
  unfold formatClimateReading
  have h1 : ∀ r : Reading, sfind r "device_id" = none →
      sfind (assocSet r "is_on" (PVal.b (!(st.state = "off")))) "device_id" = none := by
    intro r hr
    rw [sfind_assocSet_ne r "is_on" "device_id" _ (by decide)]
    exact hr
  cases st.current_temperature with
  | none =>
    cases st.temperature with
    | none => exact h1 _ h
    | some t =>
      apply h1
      rw [sfind_assocSet_ne reading "target_temperature_c" "device_id" _ (by decide)]
      exact h
  | some t =>
    have h2 : sfind (assocSet reading "temperature_c" (PVal.n t)) "device_id" = none := by
      rw [sfind_assocSet_ne reading "temperature_c" "device_id" _ (by decide)]
      exact h
    cases st.temperature with
    | none => exact h1 _ h2
    | some t2 =>
      apply h1
      rw [sfind_assocSet_ne _ "target_temperature_c" "device_id" _ (by decide)]
      exact h2

theorem formatReading_no_device_id (hs : String → Option HAState)
    (dof : List (String × String)) (eid : String) (st : HAState) (m : EntityMapping)
    (r : Reading) (h : formatReading hs dof eid st m = some r) :
    sfind r "device_id" = none := by
  have hbase : sfind ([("ha_entity_id", PVal.s eid), ("capability", PVal.s m.capability)] : Reading)
      "device_id" = none := by
    simp [sfind]
  unfold formatReading at h
  dsimp only at h
  by_cases hd1 : entityDomain eid = "sensor"
  · rw [if_pos hd1] at h
    split at h
    · cases h
      exact formatSensorReading_no_device_id _ _ _ _ _ hbase
    · cases h
  rw [if_neg hd1] at h
  by_cases hd2 : entityDomain eid = "water_heater"
  · rw [if_pos hd2] at h
    split at h
    · cases h
      exact formatWaterHeaterReading_no_device_id _ _ hbase
    · cases h
  rw [if_neg hd2] at h
  by_cases hd3 : entityDomain eid = "switch"
  · rw [if_pos hd3] at h
    split at h
    · cases h
      exact formatSwitchReading_no_device_id _ _ hbase
    · cases h
  rw [if_neg hd3] at h
  by_cases hd4 : entityDomain eid = "climate"
  · rw [if_pos hd4] at h
    split at h
    · cases h
      exact formatClimateReading_no_device_id _ _ hbase
    · cases h
  rw [if_neg hd4] at h
  split at h
  · cases h
    exact hbase
  · cases h

/-! ## Pending-map well-formedness and key provenance -/

theorem pendingWF_assocSet {p : PendingMap} {d : String} {r : Reading}
    (hwf : PendingWF p) (hr : sfind r "device_id" = some (PVal.s d)) :
    PendingWF (assocSet p d r) := by
  intro kv hkv
  rcases mem_assocSet hkv with h1 | h1
  · exact hwf kv h1
  · rw [h1]
    exact hr

theorem flushPending_keys (p : PendingMap) (b : Bool) (hwf : PendingWF p) (k : String)
    (h : sfind (flushPending p b) k ≠ none) : sfind p k ≠ none := by
  unfold flushPending drainReadings at h
  by_cases hemp : p.isEmpty
  · rw [if_pos hemp] at h
    dsimp only at h
    simpa using h
  · rw [if_neg hemp] at h
    dsimp only at h
    have hmapne : ¬ (p.map Prod.snd).isEmpty := by
      cases p with
      | nil => simp at hemp
      | cons kv rest => simp
    rw [if_neg hmapne] at h
    cases b with
    | true =>
      simp only [if_pos] at h
      simp [sfind] at h
    | false =>
      simp only [Bool.false_eq_true, if_neg] at h
      rcases requeueDrained_ne_none _ _ _ h with h1 | ⟨r, hr, hid⟩
      · simp [sfind] at h1
      · rcases List.mem_map.mp hr with ⟨kv, hkv, hsnd⟩
        have hwkv := hwf kv hkv
        unfold readingId at hid
        rw [hsnd] at hwkv
        rw [hwkv] at hid
        dsimp only at hid
        by_cases hke : kv.1 = ""
        · rw [if_pos hke] at hid
          cases hid
        · rw [if_neg hke] at hid
          have hkk : kv.1 = k := by
            injection hid
          subst hkk
          exact sfind_ne_none_of_mem (show (kv.1, kv.2) ∈ p by simpa using hkv)

theorem addPendingReading_keys (p : PendingMap) (d : String) (r : Reading) (b : Bool)
    (hwf : PendingWF p) (hrid : sfind r "device_id" = none) (k : String)
    (h : sfind (addPendingReading p d r b) k ≠ none) : k = d ∨ sfind p k ≠ none := by
  unfold addPendingReading at h
  dsimp only at h
  have hbasewf : sfind (match sfind p d with
      | none => ([("device_id", PVal.s d)] : Reading)
      | some existing => existing) "device_id" = some (PVal.s d) := by
    cases hpd : sfind p d with
    | none => simp [sfind]
    | some existing =>
      dsimp only
      exact hwf (d, existing) (mem_of_sfind hpd)
  have hmerged : sfind (dictUpdate (match sfind p d with
      | none => ([("device_id", PVal.s d)] : Reading)
      | some existing => existing) r) "device_id" = some (PVal.s d) := by
    rw [sfind_dictUpdate_none _ _ _ hrid]
    exact hbasewf
  have hwf2 : PendingWF (assocSet p d (dictUpdate (match sfind p d with
      | none => ([("device_id", PVal.s d)] : Reading)
      | some existing => existing) r)) := pendingWF_assocSet hwf hmerged
  split at h
  · exact sfind_assocSet_cases (flushPending_keys _ b hwf2 k h)
  · exact sfind_assocSet_cases h

theorem handleStateChange_keys (hs : String → Option HAState) (netOk : Bool)
    (st : PushState) (eid : String) (ns : Option HAState)
    (hwf : PendingWF st.pending) (k : String)
    (h : sfind (handleStateChange hs netOk st eid ns).pending k ≠ none) :
    sfind st.pending k ≠ none ∨ k ∈ deviceIds st.entityMappings := by
  unfold handleStateChange at h
  cases ns with
  | none => exact Or.inl h
  | some s =>
    dsimp only at h
    by_cases h1 : eid = ""
    · rw [if_pos h1] at h
      exact Or.inl h
    rw [if_neg h1] at h
    by_cases h2 : (decide (s.state = "unavailable") || decide (s.state = "unknown")) = true
    · rw [if_pos h2] at h
      exact Or.inl h
    rw [if_neg h2] at h
    cases hm : sfind st.entityMappings eid with
    | none =>
      rw [hm] at h
      exact Or.inl h
    | some mapping =>
      rw [hm] at h
      dsimp only at h
      cases hf : formatReading hs st.deviceOnOffEntities eid s mapping with
      | none =>
        rw [hf] at h
        exact Or.inl h
      | some reading =>
        rw [hf] at h
        dsimp only at h
        have hrid := formatReading_no_device_id hs st.deviceOnOffEntities eid s mapping reading hf
        rcases addPendingReading_keys st.pending mapping.device_id reading netOk hwf hrid k h with
          rfl | hrest
        · right
          exact List.mem_map.mpr ⟨(eid, mapping), mem_of_sfind hm, rfl⟩
        · exact Or.inl hrest

/-! ## Capability-accumulation invariant -/

theorem capValue_inj : ∀ a b : AmperaCapability, capValue a = capValue b → a = b := by decide

theorem capAdd_inv (acc : CapAcc) (st : HAState) (cap : AmperaCapability)
    (h : CapInv acc) : CapInv (capAdd acc st cap) := by
  unfold capAdd
  dsimp only
  by_cases hcont : acc.capabilities.contains cap = true
  · rw [if_pos hcont]
    repeat' split
    all_goals exact h
  · rw [if_neg hcont]
    have hA : CapInv { acc with capabilities := acc.capabilities ++ [cap], entity_mapping := assocSet acc.entity_mapping (capValue cap) st.entity_id } := by
      obtain ⟨hnd, hem⟩ := h
      have hnotmem : cap ∉ acc.capabilities := by
        intro hmem
        exact hcont (List.elem_eq_true_of_mem hmem)
      constructor
      · rw [List.nodup_append]
        exact ⟨hnd, List.nodup_singleton cap,
          fun a ha hb => hnotmem ((List.mem_singleton.mp hb) ▸ ha)⟩
      · have hkey : sfind acc.entity_mapping (capValue cap) = none := by
          rw [sfind_eq_none_iff, hem]
          intro hmem
          rcases List.mem_map.mp hmem with ⟨c, hc2, he⟩
          exact hnotmem (capValue_inj c cap he ▸ hc2)
        show (assocSet acc.entity_mapping (capValue cap) st.entity_id).map Prod.fst
          = (acc.capabilities ++ [cap]).map capValue
        rw [assocSet_of_none _ hkey]
        simp [hem]
    repeat' split
    all_goals exact hA

theorem capFold_inv_parent (entities : List HAState) (acc : CapAcc) (h : CapInv acc) :
    CapInv (entities.foldl (fun a st =>
      match analyzeEntityCapability st with
      | (none, _) => a
      | (some cap, _) => capAdd a st cap) acc) := by
  induction entities generalizing acc with
  | nil => exact h
  | cons st rest ih =>
    apply ih
    show CapInv (match analyzeEntityCapability st with
      | (none, _) => acc
      | (some cap, _) => capAdd acc st cap)
    cases hA : analyzeEntityCapability st with
    | mk c dc =>
      cases c with
      | none => exact h
      | some cap => exact capAdd_inv acc st cap h

theorem capFold_inv_orphan (entities : List (HAState × AmperaCapability)) (acc : CapAcc)
    (h : CapInv acc) :
    CapInv (entities.foldl (fun a e => capAdd a e.1 e.2) acc) := by
  induction entities generalizing acc with
  | nil => exact h
  | cons e rest ih =>
    apply ih
    exact capAdd_inv acc e.1 e.2 h

theorem buildDeviceFromEntities_inv (info : String → Option String × Option String × Option String)
    (platformOf : String → Option String) (device_id : String) (entities : List HAState)
    (d : DiscoveredDevice) (h : buildDeviceFromEntities info platformOf device_id entities = some d) :
    d.capabilities.Nodup ∧ d.entity_mapping.map Prod.fst = d.capabilities.map capValue := by
  unfold buildDeviceFromEntities at h
  by_cases h1 : entities.isEmpty = true
  · rw [if_pos h1] at h
    cases h
  rw [if_neg h1] at h
  by_cases h2 : isControlOnlyDevice entities = true
  · rw [if_pos h2] at h
    cases h
  rw [if_neg h2] at h
  dsimp only at h
  have hinv := capFold_inv_parent entities ⟨[], [], "", ""⟩ ⟨List.nodup_nil, rfl⟩
  split at h
  · cases h
  · cases h
    exact ⟨hinv.1, hinv.2⟩

theorem buildOrphanGroupDevice_inv (group_id : String)
    (entities : List (HAState × AmperaCapability)) (d : DiscoveredDevice)
    (h : buildOrphanGroupDevice group_id entities = some d) :
    d.capabilities.Nodup ∧ d.entity_mapping.map Prod.fst = d.capabilities.map capValue := by
  unfold buildOrphanGroupDevice at h
  by_cases h1 : entities.isEmpty = true
  · rw [if_pos h1] at h
    cases h
  rw [if_neg h1] at h
  by_cases h2 : pyStarts group_id "skip_" = true
  · rw [if_pos h2] at h
    cases h
  rw [if_neg h2] at h
  dsimp only at h
  have hinv := capFold_inv_orphan entities ⟨[], [], "", ""⟩ ⟨List.nodup_nil, rfl⟩
  split at h
  · cases h
  · cases h
    exact ⟨hinv.1, hinv.2⟩

/-! ## Claim theorems -/

/-- Claim C1: if a sync pass fails with any network/backend error (the
`async_sync_devices` call raises) — or already at the discovery step —
the previously published device-id map and entity-mapping table are left
completely unchanged, for every prior table state, and no callback runs. -/
theorem sync_failure_leaves_mappings_unchanged
    (all_devices : List DiscoveredDevice) (sel : List String)
    (api : List DiscoveredDevice → Except Unit SyncResult)
    (callbacks : List SyncCallback) (st : SyncServiceState)
    (hfail : api (filterSelectedDevices sel all_devices) = .error ()) :
    syncDevicesPass true (.ok all_devices) sel api callbacks st = (st, [])
    ∧ ∀ e, syncDevicesPass true (.error e) sel api callbacks st = (st, []) := by
  constructor
  · unfold syncDevicesPass
    dsimp only
    by_cases hempty : (filterSelectedDevices sel all_devices).isEmpty = true
    · rw [if_pos hempty]
      rfl
    · rw [if_neg hempty, hfail]
      rfl
  · intro e
    rfl

/-- Witness for C1: a concrete failing pass over a nonempty prior state. -/
theorem sync_failure_leaves_mappings_unchanged_witness :
    apiFailing (filterSelectedDevices ["hd1"] [syncedDevice]) = .error ()
    ∧ syncDevicesPass true (.ok [syncedDevice]) ["hd1"] apiFailing [] priorSyncState
        = (priorSyncState, []) :=
  ⟨rfl, (sync_failure_leaves_mappings_unchanged [syncedDevice] ["hd1"] apiFailing []
    priorSyncState rfl).1⟩

/-- Claim C2: when the telemetry POST of a flush fails, every drained
reading is re-inserted under its device id, so the pending map after the
failed flush equals the pending map before it — the very next flush
attempt includes all of those readings again.  The hypotheses are the
pending map's construction invariants: distinct keys, each reading
carrying its key as `device_id`, and non-empty device ids (the
synchronizer never maps an entity to an empty remote id). -/
theorem flush_failure_requeues_all_readings (p : PendingMap)
    (hnd : (p.map Prod.fst).Nodup) (hwf : PendingWF p)
    (hne : ∀ kv ∈ p, kv.1 ≠ "") :
    flushPending p false = p := by
  by_cases hemp : p.isEmpty = true
  · have hp : p = [] := by
      cases p
      · rfl
      · simp at hemp
    subst hp
    rfl
  · have hfix : requeueDrained [] (p.map Prod.snd) = [] ++ p :=
      requeueDrained_restores p [] hnd hwf hne (fun kv _ => rfl)
    unfold flushPending drainReadings
    rw [if_neg hemp]
    have hmapne : ¬ ((p.map Prod.snd).isEmpty = true) := by
      cases p
      · simp at hemp
      · simp
    rw [if_neg hmapne]
    rw [hfix]
    rfl

/-- Witness for C2: one pending reading survives a failed flush intact. -/
theorem flush_failure_requeues_all_readings_witness :
    PendingWF [("d1", sampleReading)]
    ∧ flushPending [("d1", sampleReading)] false = [("d1", sampleReading)] :=
  ⟨by decide, flush_failure_requeues_all_readings [("d1", sampleReading)]
    (by decide) (by decide) (by decide)⟩

/-- Counterexample to claim C3: a pending reading whose device (`d1`) has
been removed from the entity-mapping table is NOT dropped — replacing the
table leaves the pending map untouched, and a failed flush re-queues the
reading although `d1` is no longer a device id of the active table. -/
theorem stale_pending_not_dropped_cex :
    deviceIds (updateEntityMappings samplePushState []).entityMappings = []
    ∧ (updateEntityMappings samplePushState []).pending = [("d1", sampleReading)]
    ∧ flushPending (updateEntityMappings samplePushState []).pending false
        = [("d1", sampleReading)] :=
  ⟨rfl, rfl, by decide⟩

/-- Claim C3 (amended): every key newly inserted into the pending map is
the remote device id of an entry of the entity-mapping table current when
the event is processed; but readings whose device has since been removed
from the table are retained, not dropped — replacing the mapping table
leaves the pending map untouched (and a failed flush re-queues them
regardless of the current table). -/
theorem pending_keys_recorded_from_table :
    (∀ (hs : String → Option HAState) (netOk : Bool) (st : PushState) (eid : String)
       (ns : Option HAState), PendingWF st.pending →
       ∀ k, sfind (handleStateChange hs netOk st eid ns).pending k ≠ none →
         sfind st.pending k ≠ none ∨ k ∈ deviceIds st.entityMappings)
    ∧ ∀ (st : PushState) (ems : List (String × EntityMapping)),
        (updateEntityMappings st ems).pending = st.pending :=
  ⟨fun hs netOk st eid ns hwf k h => handleStateChange_keys hs netOk st eid ns hwf k h,
   fun _ _ => rfl⟩

/-- Witness for the amended C3: processing a 2.5 kW state change for the
mapped entity `sensor.p` inserts key `d1`, which is a device id of the
current table. -/
theorem pending_keys_recorded_from_table_witness :
    PendingWF emptyPendingPushState.pending
    ∧ sfind (handleStateChange (fun _ => none) true emptyPendingPushState "sensor.p"
        (some kwState)).pending "d1" ≠ none
    ∧ (sfind emptyPendingPushState.pending "d1" ≠ none
       ∨ "d1" ∈ deviceIds emptyPendingPushState.entityMappings) :=
  ⟨by decide, by decide,
   pending_keys_recorded_from_table.1 (fun _ => none) true emptyPendingPushState "sensor.p"
     (some kwState) (by decide) "d1" (by decide)⟩

/-- Counterexample to claim C4: a successful sync whose response carries
an empty device-id map leaves the published table unchanged (the old,
non-empty table), instead of replacing it with the table built from the
returned map (which would be empty). -/
theorem sync_success_empty_map_keeps_table_cex :
    apiEmptyMap (filterSelectedDevices ["hd1"] [syncedDevice])
      = .ok { device_mappings := [], created := 0, updated := 1, removed := 0 }
    ∧ (syncDevicesPass true (.ok [syncedDevice]) ["hd1"] apiEmptyMap [] priorSyncState).1
        = priorSyncState
    ∧ (syncDevicesPass true (.ok [syncedDevice]) ["hd1"] apiEmptyMap []
        priorSyncState).1.entityMappings
        ≠ buildEntityMappings (filterSelectedDevices ["hd1"] [syncedDevice]) [] :=
  ⟨rfl, by decide, by decide⟩

/-- Claim C4 (amended): after every successful sync call that returns a
non-empty device-id map, the synchronizer replaces its published device-id
map with the returned map and its entity-mapping table with the table
built from it, and invokes every registered callback with exactly that
map and table; each callback is invoked (its exceptions are contained in
its own result and never abort the pass). -/
theorem sync_success_nonempty_replaces_and_notifies
    (all_devices : List DiscoveredDevice) (sel : List String)
    (api : List DiscoveredDevice → Except Unit SyncResult)
    (callbacks : List SyncCallback) (st : SyncServiceState) (r : SyncResult)
    (hsel : (filterSelectedDevices sel all_devices).isEmpty = false)
    (hok : api (filterSelectedDevices sel all_devices) = .ok r)
    (hne : r.device_mappings.isEmpty = false) :
    syncDevicesPass true (.ok all_devices) sel api callbacks st =
      ({ deviceIdMappings := r.device_mappings,
         entityMappings := buildEntityMappings (filterSelectedDevices sel all_devices)
           r.device_mappings },
       callbacks.map (fun cb => cb r.device_mappings
         (buildEntityMappings (filterSelectedDevices sel all_devices) r.device_mappings))) := by
  unfold syncDevicesPass
  dsimp only
  have hsel' : ¬ ((filterSelectedDevices sel all_devices).isEmpty = true) := by
    rw [hsel]
    simp
  have hne' : ¬ (r.device_mappings.isEmpty = true) := by
    rw [hne]
    simp
  rw [if_neg hsel', hok]
  dsimp only
  rw [if_neg hne']
  rfl

/-- Witness for the amended C4: a fresh map replaces the old state and
the single (raising) registered callback is invoked with the new tables;
its exception is contained and the pass completes. -/
theorem sync_success_nonempty_replaces_and_notifies_witness :
    syncDevicesPass true (.ok [syncedDevice]) ["hd1"] apiFreshMap [raisingCallback] priorSyncState
      = ({ deviceIdMappings := [("hd1", "remote-42")],
           entityMappings := buildEntityMappings (filterSelectedDevices ["hd1"] [syncedDevice])
             [("hd1", "remote-42")] },
         [Except.error ()]) := by
  have h := sync_success_nonempty_replaces_and_notifies [syncedDevice] ["hd1"] apiFreshMap
    [raisingCallback] priorSyncState
    { device_mappings := [("hd1", "remote-42")], created := 1, updated := 0, removed := 0 }
    (by decide) rfl (by decide)
  rw [h]
  rfl

/-- Claim C5: every `DiscoveredDevice` produced by either builder (parent
cluster or orphan group) has a duplicate-free capability list, and its
`entity_mapping` has exactly one entity id per capability present: the
mapping keys are precisely the capability values, with no repeated key. -/
theorem device_capabilities_nodup_unique_mapping :
    (∀ info platformOf device_id entities d,
      buildDeviceFromEntities info platformOf device_id entities = some d →
        d.capabilities.Nodup ∧ d.entity_mapping.map Prod.fst = d.capabilities.map capValue
        ∧ (d.entity_mapping.map Prod.fst).Nodup)
    ∧ (∀ group_id entities d,
      buildOrphanGroupDevice group_id entities = some d →
        d.capabilities.Nodup ∧ d.entity_mapping.map Prod.fst = d.capabilities.map capValue
        ∧ (d.entity_mapping.map Prod.fst).Nodup) := by
  have hinj : Function.Injective capValue := fun a b hab => capValue_inj a b hab
  constructor
  · intro info platformOf device_id entities d h
    obtain ⟨h1, h2⟩ := buildDeviceFromEntities_inv info platformOf device_id entities d h
    refine ⟨h1, h2, ?_⟩
    rw [h2]
    exact h1.map hinj
  · intro group_id entities d h
    obtain ⟨h1, h2⟩ := buildOrphanGroupDevice_inv group_id entities d h
    refine ⟨h1, h2, ?_⟩
    rw [h2]
    exact h1.map hinj

/-- Witness for C5 at the concrete single-sensor parent cluster. -/
theorem device_capabilities_nodup_unique_mapping_witness :
    buildDeviceFromEntities (fun _ => (none, none, none)) (fun _ => none) "dev1" [hanPowerSensor]
      = some hanSingleDevice
    ∧ hanSingleDevice.capabilities.Nodup
    ∧ hanSingleDevice.entity_mapping.map Prod.fst = hanSingleDevice.capabilities.map capValue := by
  refine ⟨by decide, ?_, ?_⟩
  · exact (device_capabilities_nodup_unique_mapping.1 (fun _ => (none, none, none)) (fun _ => none)
      "dev1" [hanPowerSensor] hanSingleDevice (by decide)).1
  · exact (device_capabilities_nodup_unique_mapping.1 (fun _ => (none, none, none)) (fun _ => none)
      "dev1" [hanPowerSensor] hanSingleDevice (by decide)).2.1

/-- Claim C6: a parent cluster consisting solely of the switch
`switch.ev_charger_enable` (no sensor entities) is caught by the
control-only filter, so discovery emits no device for it — whatever the
device registry and platform registry hold. -/
theorem control_only_switch_cluster_not_emitted
    (info : String → Option String × Option String × Option String)
    (platformOf : String → Option String) (device_id : String) :
    isControlOnlyDevice [evEnableSwitch] = true
    ∧ buildDeviceFromEntities info platformOf device_id [evEnableSwitch] = none := by
  constructor
  · decide
  · unfold buildDeviceFromEntities
    rw [if_neg (show ¬ (([evEnableSwitch] : List HAState).isEmpty = true) by decide),
      if_pos (show isControlOnlyDevice [evEnableSwitch] = true by decide)]

/-- Claim C7: the two orphan HAN sensors (`sensor.han_power`, device-class
power, and `sensor.han_voltage_l1`, device-class voltage) are grouped into
the same `virtual_power_meter` group, which builds one power_meter device
carrying both capabilities. -/
theorem orphan_han_sensors_same_power_meter_group :
    groupOrphanEntities (fun _ => none) [hanPowerSensor, hanVoltageSensor]
      = [("virtual_power_meter",
          [(hanPowerSensor, AmperaCapability.power), (hanVoltageSensor, AmperaCapability.voltage_l1)])]
    ∧ buildOrphanGroupDevice "virtual_power_meter"
        [(hanPowerSensor, AmperaCapability.power), (hanVoltageSensor, AmperaCapability.voltage_l1)]
      = some hanPowerMeterDevice :=
  ⟨by decide, by decide⟩

/-- Claim C8: for a sensor entity mapped to capability `power`, kW values
are multiplied by 1000 into `power_w` and any other unit passes through
unchanged; in particular 1.5 kW formats to `power_w = 1500.0` (witness). -/
theorem power_kw_formats_to_watts (hs : String → Option HAState)
    (dof : List (String × String)) (base : Reading) (st : HAState)
    (m : EntityMapping) (v : ℚ)
    (hcap : m.capability = "power") (hval : pyFloat st.state = some v) :
    (st.unit_of_measurement.getD "" = "kW" →
      sfind (formatSensorReading hs dof base st m) "power_w" = some (PVal.n (v * 1000)))
    ∧ (st.unit_of_measurement.getD "" ≠ "kW" →
      sfind (formatSensorReading hs dof base st m) "power_w" = some (PVal.n v)) := by
  unfold formatSensorReading
  rw [hval]
  dsimp only
  rw [hcap]
  have hfield : ∀ u, sensorCapField "power" u v
      = [("power_w", PVal.n (if u = "kW" then v * 1000 else v))] := by
    intro u
    unfold sensorCapField
    rw [if_pos rfl]
  have hdu : ∀ (w : Reading) (x : PVal), dictUpdate w [("power_w", x)] = assocSet w "power_w" x :=
    fun w x => rfl
  constructor
  · intro hu
    rw [hfield _, hdu, sfind_assocSet_self, if_pos hu]
  · intro hu
    rw [hfield _, hdu, sfind_assocSet_self, if_neg hu]

/-- Witness for C8: state "1.5" with unit kW yields power_w = 1500. -/
theorem power_kw_formats_to_watts_witness :
    pyFloat "1.5" = some (3/2 : ℚ)
    ∧ sfind (formatSensorReading (fun _ => none) [] sampleBaseReading kwStateOnePointFive
        powerMapping) "power_w" = some (PVal.n 1500) := by
  have hparse : pyFloat "1.5" = some (3/2 : ℚ) := by
    have h0 : pyFloat "1.5"
        = some ((1 : ℚ) * ((digitsToNat ['1'] : ℚ) + (digitsToNat ['5'] : ℚ) / (10 : ℚ) ^ (1 : ℕ))) :=
      rfl
    rw [h0, show digitsToNat ['1'] = 1 from rfl, show digitsToNat ['5'] = 5 from rfl]
    simp only [Option.some.injEq]
    push_cast
    norm_num
  refine ⟨hparse, ?_⟩
  have h := (power_kw_formats_to_watts (fun _ => none) [] sampleBaseReading kwStateOnePointFive
    powerMapping (3/2) rfl hparse).1 rfl
  rw [h]
  norm_num

/-- Claim C9: after a failed flush, each drained reading is written back
under its own device id wholesale: the pending entry equals the drained
reading itself, whatever entry (e.g. a reading recorded while the flush
was in flight) the pending map holds for that device at requeue time. -/
theorem requeue_overwrites_inflight_reading (mid : PendingMap) (drained : List Reading)
    (k : String) (r : Reading)
    (hnd : (drained.filterMap readingId).Nodup)
    (hmem : r ∈ drained) (hid : readingId r = some k) :
    sfind (requeueDrained mid drained) k = some r :=
  requeueDrained_last_wins drained mid k r hnd hmem hid

/-- Witness for C9: the drained reading replaces the in-flight one. -/
theorem requeue_overwrites_inflight_reading_witness :
    readingId sampleReading = some "d1"
    ∧ sfind (requeueDrained [("d1", inflightReading)] [sampleReading]) "d1"
        = some sampleReading :=
  ⟨by decide, requeue_overwrites_inflight_reading [("d1", inflightReading)] [sampleReading]
    "d1" sampleReading (by decide) (by decide) (by decide)⟩

/-- Claim C10: tier-2 signal scoring breaks ties at the maximum by the
fixed order EV charger, water heater, power meter: if the EV count is at
least 2 and is not exceeded by the other two, EV charger is returned
(covering every tie at the shared maximum); a water-heater/power-meter
tie that beats the EV count returns water heater. -/
theorem signal_tie_prefers_ev_then_water_heater (entities : List HAState) :
    (2 ≤ countSignals EV_CHARGER_SIGNALS (signalText entities) →
     countSignals WATER_HEATER_SIGNALS (signalText entities)
       ≤ countSignals EV_CHARGER_SIGNALS (signalText entities) →
     countSignals AMS_POWER_METER_SIGNALS (signalText entities)
       ≤ countSignals EV_CHARGER_SIGNALS (signalText entities) →
     detectDeviceTypeFromSignals entities = some AmperaDeviceType.ev_charger)
    ∧ (2 ≤ countSignals WATER_HEATER_SIGNALS (signalText entities) →
       countSignals EV_CHARGER_SIGNALS (signalText entities)
         < countSignals WATER_HEATER_SIGNALS (signalText entities) →
       countSignals AMS_POWER_METER_SIGNALS (signalText entities)
         ≤ countSignals WATER_HEATER_SIGNALS (signalText entities) →
       detectDeviceTypeFromSignals entities = some AmperaDeviceType.water_heater) := by
  constructor
  · intro h2 hw ha
    unfold detectDeviceTypeFromSignals pyMaxFirst
    dsimp only [List.foldl]
    rw [if_neg (not_lt.mpr hw), if_neg (not_lt.mpr ha), if_pos h2]
  · intro h2 he ha
    unfold detectDeviceTypeFromSignals pyMaxFirst
    dsimp only [List.foldl]
    rw [if_pos he, if_neg (not_lt.mpr ha), if_pos h2]

/-- Witness for C10: an entity tying EV-charger and water-heater counts at
2 is classified as an EV charger. -/
theorem signal_tie_prefers_ev_then_water_heater_witness :
    countSignals EV_CHARGER_SIGNALS (signalText [tieEntity]) = 2
    ∧ countSignals WATER_HEATER_SIGNALS (signalText [tieEntity]) = 2
    ∧ detectDeviceTypeFromSignals [tieEntity] = some AmperaDeviceType.ev_charger :=
  ⟨by decide, by decide,
   (signal_tie_prefers_ev_then_water_heater [tieEntity]).1 (by decide) (by decide) (by decide)⟩
